import Mathlib

/-!
# Verification of `aws_dynamodb_io`

A shallow embedding of the core logic of the `aws_dynamodb_io` package:
the manifest-summary codec, the polling `Waiter`, the export/import job
describe/list/wait operations, and the data-file codec.  Python values
appearing in JSON documents are modelled by `JVal`; Python exceptions by
`PyExc`; fallible Python code returns `Except PyExc α`.  Time in the
waiter is modelled by exact rational arithmetic.
-/

set_option maxRecDepth 10000

namespace AwsDynamodbIo

/-- A JSON-ish Python value as produced by `json.loads`: strings, integers,
booleans and `None` (JSON `null`).  This is all that appears in manifest
summary documents. -/
inductive JVal where
  | str (s : String)
  | int (n : Int)
  | bool (b : Bool)
  | null
  deriving DecidableEq, Repr

/-- The Python exceptions that the embedded code can raise or observe. -/
inductive PyExc where
  | keyError (k : String)
  | typeError
  | attributeError
  | valueError (msg : String)
  | notImplementedError
  | timeoutError (msg : String)
  /-- A `botocore.exceptions.ClientError` with its service error code; `tag`
  distinguishes distinct error objects with the same code. -/
  | clientError (code : String) (tag : Nat)
  | importError
  deriving DecidableEq, Repr

/-- A Python `dict` parsed from JSON, as an association list (keys unique in
every dict the code builds; lookup takes the first binding). -/
abbrev Doc := List (String × JVal)

/-- First-binding lookup, the semantics of Python `dict` subscripting on the
documents we model. -/
def lookupKV : Doc → String → Option JVal
  | [], _ => none
  | (k, v) :: rest, key => if key = k then some v else lookupKV rest key

/-- Python `data[k]`: raises `KeyError` when the key is absent. -/
def pyGetItem (d : Doc) (k : String) : Except PyExc JVal :=
  match lookupKV d k with
  | some v => .ok v
  | none => .error (.keyError k)

/-- Python `data.get(k)`: `None` when the key is absent.  Since JSON `null`
also parses to Python `None`, a missing key and a `null` value coincide
after this call, which is what storing the result as `JVal` captures
(`JVal.null` plays the role of Python `None`). -/
def pyGet (d : Doc) (k : String) : JVal :=
  (lookupKV d k).getD .null

/-- The `manifest-summary.json` data model (`ManifestSummary` dataclass,
`export_table.py`).  Fields hold the raw values taken from the document;
fields read with `.get` default to `JVal.null` (Python `None`). -/
structure ManifestSummary where
  version : JVal
  export_arn : JVal
  table_id : JVal
  table_arn : JVal
  s3_bucket : JVal
  s3_prefix_ : JVal
  s3_sse_algorithm : JVal
  s3_sse_kms_key_id : JVal
  item_count : JVal
  output_format : JVal
  output_view : JVal
  export_from_time_str : JVal
  export_to_time_str : JVal
  start_time_str : JVal
  end_time_str : JVal
  export_time_str : JVal
  manifest_files_s3_key : JVal
  billed_size_bytes : JVal
  export_type : JVal
  deriving DecidableEq, Repr

/-- `ExportTypeEnum.FULL_EXPORT.value`. -/
def FULL_EXPORT : String := "FULL_EXPORT"

/-- `ExportTypeEnum.INCREMENTAL_EXPORT.value`. -/
def INCREMENTAL_EXPORT : String := "INCREMENTAL_EXPORT"

/-- `ManifestSummary.is_full_export`. -/
def ManifestSummary.is_full_export (ms : ManifestSummary) : Bool :=
  ms.export_type = JVal.str FULL_EXPORT

/-- `ManifestSummary.is_incremental_export`. -/
def ManifestSummary.is_incremental_export (ms : ManifestSummary) : Bool :=
  ms.export_type = JVal.str INCREMENTAL_EXPORT

/-- `ManifestSummary.from_dict` (export_table.py lines 96-118): required
fields via `data[...]` (raising `KeyError` when absent), optional fields via
`data.get(...)`.  No validation of the `exportType` tag is performed. -/
def ManifestSummary.from_dict (data : Doc) : Except PyExc ManifestSummary := do
  let version ← pyGetItem data "version"
  let export_arn ← pyGetItem data "exportArn"
  let table_id ← pyGetItem data "tableId"
  let table_arn ← pyGetItem data "tableArn"
  let s3_bucket ← pyGetItem data "s3Bucket"
  let s3_prefix_ ← pyGetItem data "s3Prefix"
  let s3_sse_algorithm ← pyGetItem data "s3SseAlgorithm"
  let s3_sse_kms_key_id := pyGet data "s3SseKmsKeyId"
  let item_count ← pyGetItem data "itemCount"
  let output_format ← pyGetItem data "outputFormat"
  let output_view := pyGet data "outputView"
  let export_from_time_str := pyGet data "exportFromTime"
  let export_to_time_str := pyGet data "exportToTime"
  let start_time_str ← pyGetItem data "startTime"
  let end_time_str ← pyGetItem data "endTime"
  let export_time_str := pyGet data "exportTime"
  let manifest_files_s3_key ← pyGetItem data "manifestFilesS3Key"
  let billed_size_bytes ← pyGetItem data "billedSizeBytes"
  let export_type ← pyGetItem data "exportType"
  pure {
    version := version
    export_arn := export_arn
    table_id := table_id
    table_arn := table_arn
    s3_bucket := s3_bucket
    s3_prefix_ := s3_prefix_
    s3_sse_algorithm := s3_sse_algorithm
    s3_sse_kms_key_id := s3_sse_kms_key_id
    item_count := item_count
    output_format := output_format
    output_view := output_view
    export_from_time_str := export_from_time_str
    export_to_time_str := export_to_time_str
    start_time_str := start_time_str
    end_time_str := end_time_str
    export_time_str := export_time_str
    manifest_files_s3_key := manifest_files_s3_key
    billed_size_bytes := billed_size_bytes
    export_type := export_type
  }

/-- `ManifestSummary.to_dict` (export_table.py lines 120-165): builds the
full-export or incremental-export dict depending on the export-type tag and
raises `NotImplementedError` for any other tag. -/
def ManifestSummary.to_dict (ms : ManifestSummary) : Except PyExc Doc :=
  if ms.is_full_export then
    .ok [
      ("version", ms.version),
      ("exportArn", ms.export_arn),
      ("tableId", ms.table_id),
      ("tableArn", ms.table_arn),
      ("s3Bucket", ms.s3_bucket),
      ("s3Prefix", ms.s3_prefix_),
      ("s3SseAlgorithm", ms.s3_sse_algorithm),
      ("s3SseKmsKeyId", ms.s3_sse_kms_key_id),
      ("itemCount", ms.item_count),
      ("outputFormat", ms.output_format),
      ("startTime", ms.start_time_str),
      ("endTime", ms.end_time_str),
      ("exportTime", ms.export_time_str),
      ("manifestFilesS3Key", ms.manifest_files_s3_key),
      ("billedSizeBytes", ms.billed_size_bytes),
      ("exportType", ms.export_type)]
  else if ms.is_incremental_export then
    .ok [
      ("version", ms.version),
      ("exportArn", ms.export_arn),
      ("tableId", ms.table_id),
      ("tableArn", ms.table_arn),
      ("s3Bucket", ms.s3_bucket),
      ("s3Prefix", ms.s3_prefix_),
      ("s3SseAlgorithm", ms.s3_sse_algorithm),
      ("s3SseKmsKeyId", ms.s3_sse_kms_key_id),
      ("itemCount", ms.item_count),
      ("outputFormat", ms.output_format),
      ("outputView", ms.output_view),
      ("exportFromTime", ms.export_from_time_str),
      ("exportToTime", ms.export_to_time_str),
      ("startTime", ms.start_time_str),
      ("endTime", ms.end_time_str),
      ("manifestFilesS3Key", ms.manifest_files_s3_key),
      ("billedSizeBytes", ms.billed_size_bytes),
      ("exportType", ms.export_type)]
  else
    .error .notImplementedError

/-- Key set of a full-export summary document (the shape emitted by
`to_dict` in the full-export branch). -/
def fullExportKeys : List String :=
  ["version", "exportArn", "tableId", "tableArn", "s3Bucket", "s3Prefix",
   "s3SseAlgorithm", "s3SseKmsKeyId", "itemCount", "outputFormat",
   "startTime", "endTime", "exportTime", "manifestFilesS3Key",
   "billedSizeBytes", "exportType"]

/-- Key set of an incremental-export summary document (the shape emitted by
`to_dict` in the incremental-export branch). -/
def incrementalExportKeys : List String :=
  ["version", "exportArn", "tableId", "tableArn", "s3Bucket", "s3Prefix",
   "s3SseAlgorithm", "s3SseKmsKeyId", "itemCount", "outputFormat",
   "outputView", "exportFromTime", "exportToTime", "startTime", "endTime",
   "manifestFilesS3Key", "billedSizeBytes", "exportType"]

/-- A valid summary document of the variant with key set `keys` and
export-type tag `tag`: it binds exactly the keys in `keys` (a key possibly
bound to `null`, matching the documents the service writes) and carries the
given tag. -/
def ValidSummaryDoc (d : Doc) (keys : List String) (tag : String) : Prop :=
  (∀ p ∈ d, p.1 ∈ keys) ∧
  (∀ k ∈ keys, (lookupKV d k).isSome) ∧
  lookupKV d "exportType" = some (.str tag)

instance (d : Doc) (keys : List String) (tag : String) :
    Decidable (ValidSummaryDoc d keys tag) := by
  unfold ValidSummaryDoc
  exact inferInstanceAs (Decidable (_ ∧ _ ∧ _))

/-! ## The `Waiter` polling primitive (`waiter.py`)

Wall-clock time is modelled with exact rationals; `time.time()` at the start
of a run is taken as 0, so `end = timeout`.  The consumer of the generator
(the body of the caller's `for` loop) is modelled by a handler which, for
each yielded `(attempt, elapsed)` pair, either breaks out of the loop with a
value or lets the loop continue after spending some amount of wall-clock
time of its own. -/

/-- Python `int(...)` on a rational: truncation toward zero. -/
def pyInt (q : ℚ) : Int :=
  q.num.sign * Int.ofNat (q.num.natAbs / q.den)

/-- Constructor arguments of `Waiter` that affect `__iter__`. -/
structure WaiterCfg where
  delays : ℚ
  timeout : ℚ
  instant : Bool
  deriving DecidableEq, Repr

/-- One `yield` of `Waiter.__iter__`: the attempt number and reported
elapsed seconds handed to the consumer, plus the wall-clock time at which
the yield happens (not part of the yielded pair). -/
structure Yield where
  attempt : Nat
  elapsed : Int
  wall : ℚ
  deriving DecidableEq, Repr

/-- How a run of the generator ends. -/
inductive Outcome (α : Type) where
  /-- `raise TimeoutError(...)` from `Waiter.__iter__`. -/
  | timeout
  /-- The consumer broke out of (or returned from / raised out of) the loop
  with this value. -/
  | broke (a : α)
  /-- Fuel exhausted: the run was still going (models non-termination). -/
  | fuelOut
  deriving DecidableEq, Repr

/-- The consumer's reaction to one yielded pair: break with a value, or
continue after spending `c` seconds of wall-clock time. -/
inductive LoopCtl (α : Type) where
  | brk (a : α)
  | cont (c : ℚ)

/-- The `for attempt, delay in enumerate(self.delays, k)` loop of
`Waiter.__iter__` (waiter.py lines 89-104).  `k` is the attempt counter,
`now` the wall-clock time at the start of the iteration.  Per iteration:
`remaining = end - now`; if `remaining < 0` raise `TimeoutError`; otherwise
sleep `min(delay, remaining)` and yield `(attempt, int(now - start + delay))`.
Returns the yields made and the outcome. -/
def waiterLoop (cfg : WaiterCfg) (handler : Nat → Int → LoopCtl α) :
    Nat → ℚ → Nat → List Yield × Outcome α
  | _, _, 0 => ([], .fuelOut)
  | k, now, fuel + 1 =>
    let remaining := cfg.timeout - now
    if remaining < 0 then
      ([], .timeout)
    else
      let wall := now + min cfg.delays remaining
      let elapsed := pyInt (now + cfg.delays)
      let y : Yield := ⟨k, elapsed, wall⟩
      match handler k elapsed with
      | .brk a => ([y], .broke a)
      | .cont c =>
        let r := waiterLoop cfg handler (k + 1) (wall + c) fuel
        (y :: r.1, r.2)

/-- `Waiter.__iter__` (waiter.py lines 62-104): when `instant` is set the
generator first yields `(1, 0)` immediately and the loop counter starts at
2; otherwise the loop counter starts at 1. -/
def waiterRun (cfg : WaiterCfg) (handler : Nat → Int → LoopCtl α)
    (fuel : Nat) : List Yield × Outcome α :=
  if cfg.instant then
    let y : Yield := ⟨1, 0, 0⟩
    match handler 1 0 with
    | .brk a => ([y], .broke a)
    | .cont c =>
      let r := waiterLoop cfg handler 2 c fuel
      (y :: r.1, r.2)
  else
    waiterLoop cfg handler 1 0 fuel

/-! ## Export and import job records -/

/-- Python `str(x)` for an optional string (`None` prints as `"None"`), as
used by f-string interpolation of a possibly-`None` attribute. -/
def pyStr : Option String → String
  | none => "None"
  | some s => s

/-- `__post_init__` prefix normalization shared by both job dataclasses:
a non-`None` prefix gets a trailing `/` appended when missing. -/
def normalizePrefix : Option String → Option String
  | none => none
  | some p => if p.endsWith "/" then some p else some (p ++ "/")

/-- The `ExportJob` dataclass (`export_table.py`), restricted to the fields
the verified operations read; construction goes through `ExportJob.make`
which performs `__post_init__`. -/
structure ExportJob where
  arn : String
  status : String
  s3_bucket : Option String := none
  s3_prefix_ : Option String := none
  failure_code : Option String := none
  failure_message : Option String := none
  export_format : Option String := none
  export_type : Option String := none
  deriving DecidableEq, Repr

/-- `ExportJob(...)` dataclass construction followed by `__post_init__`
(export_table.py lines 310-313). -/
def ExportJob.make (arn status : String)
    (s3_bucket : Option String := none) (s3_prefix_ : Option String := none)
    (failure_code : Option String := none)
    (failure_message : Option String := none)
    (export_format : Option String := none)
    (export_type : Option String := none) : ExportJob :=
  { arn := arn, status := status, s3_bucket := s3_bucket,
    s3_prefix_ := normalizePrefix s3_prefix_, failure_code := failure_code,
    failure_message := failure_message, export_format := export_format,
    export_type := export_type }

/-- `ExportJob.is_in_progress`. -/
def ExportJob.is_in_progress (j : ExportJob) : Bool := j.status = "IN_PROGRESS"

/-- `ExportJob.is_completed`. -/
def ExportJob.is_completed (j : ExportJob) : Bool := j.status = "COMPLETED"

/-- `ExportJob.is_failed`. -/
def ExportJob.is_failed (j : ExportJob) : Bool := j.status = "FAILED"

/-- The fields of a `describe_export` / `export_table_to_point_in_time`
response's `ExportDescription` that `from_export_description` reads (again
restricted to the fields the verified operations use). -/
structure ExportDesc where
  exportArnD : String
  exportStatusD : String
  s3BucketD : Option String := none
  s3PrefixD : Option String := none
  failureCodeD : Option String := none
  failureMessageD : Option String := none
  exportFormatD : Option String := none
  exportTypeD : Option String := none
  deriving DecidableEq, Repr

/-- `ExportJob.from_export_description` (export_table.py lines 355-382). -/
def ExportJob.from_export_description (desc : ExportDesc) : ExportJob :=
  ExportJob.make desc.exportArnD desc.exportStatusD desc.s3BucketD
    desc.s3PrefixD desc.failureCodeD desc.failureMessageD desc.exportFormatD
    desc.exportTypeD

/-- `ExportJob.describe_export` (export_table.py lines 384-402).  The
underlying `dynamodb_client.describe_export` call is the function argument
`client`; a raised `botocore.exceptions.ClientError` is its `.error
(.clientError code tag)` result and any other exception is any other
`.error` value.  The code catches only `ClientError`: the
`ExportNotFoundException` code becomes `None`, any other caught code is
replaced by a fresh `NotImplementedError`, and non-`ClientError` exceptions
propagate. -/
def ExportJob.describe_export (client : String → Except PyExc ExportDesc)
    (export_arn : String) : Except PyExc (Option ExportJob) :=
  match client export_arn with
  | .error (.clientError code _tag) =>
    if code = "ExportNotFoundException" then .ok none
    else .error .notImplementedError
  | .error e => .error e
  | .ok desc => .ok (some (ExportJob.from_export_description desc))

/-- The `ImportJob` dataclass (`import_table.py`), restricted to the fields
the verified operations read. -/
structure ImportJob where
  arn : String
  status : String
  s3_bucket : Option String := none
  s3_prefix_ : Option String := none
  failure_code : Option String := none
  failure_message : Option String := none
  deriving DecidableEq, Repr

/-- `ImportJob(...)` dataclass construction followed by `__post_init__`
(import_table.py lines 79-82). -/
def ImportJob.make (arn status : String)
    (s3_bucket : Option String := none) (s3_prefix_ : Option String := none)
    (failure_code : Option String := none)
    (failure_message : Option String := none) : ImportJob :=
  { arn := arn, status := status, s3_bucket := s3_bucket,
    s3_prefix_ := normalizePrefix s3_prefix_, failure_code := failure_code,
    failure_message := failure_message }

/-- `ImportJob.is_completed`. -/
def ImportJob.is_completed (j : ImportJob) : Bool := j.status = "COMPLETED"

/-- `ImportJob.is_failed`. -/
def ImportJob.is_failed (j : ImportJob) : Bool := j.status = "FAILED"

/-- The fields of a `describe_import` response's `ImportTableDescription`
that the verified operations use. -/
structure ImportDesc where
  importArnD : String
  importStatusD : String
  s3BucketD : Option String := none
  s3PrefixD : Option String := none
  failureCodeD : Option String := none
  failureMessageD : Option String := none
  deriving DecidableEq, Repr

/-- `ImportJob.from_import_description` (import_table.py lines 124-151). -/
def ImportJob.from_import_description (desc : ImportDesc) : ImportJob :=
  ImportJob.make desc.importArnD desc.importStatusD desc.s3BucketD
    desc.s3PrefixD desc.failureCodeD desc.failureMessageD

/-- `ImportJob.describe_import` (import_table.py lines 153-170): same
try/except structure as `describe_export`, keyed on
`ImportNotFoundException`. -/
def ImportJob.describe_import (client : String → Except PyExc ImportDesc)
    (import_arn : String) : Except PyExc (Option ImportJob) :=
  match client import_arn with
  | .error (.clientError code _tag) =>
    if code = "ImportNotFoundException" then .ok none
    else .error .notImplementedError
  | .error e => .error e
  | .ok desc => .ok (some (ImportJob.from_import_description desc))

/-! ## `wait_until_complete` -/

/-- What one iteration of the `wait_until_complete` loop body decides. -/
inductive WaitStep (α : Type) where
  /-- `return job` -/
  | done (a : α)
  /-- an exception is raised out of the loop -/
  | fail (e : PyExc)
  /-- `pass`: fall through to the next waiter attempt -/
  | next
  deriving DecidableEq, Repr

/-- Loop body of `ExportJob.wait_until_complete` (export_table.py lines
627-636) applied to the value returned by `describe_export`.  Calling
`.is_completed()` on `None` raises `AttributeError`. -/
def exportWaitBody (j? : Option ExportJob) : WaitStep ExportJob :=
  match j? with
  | none => .fail .attributeError
  | some j =>
    if j.is_completed then .done j
    else if j.is_failed then
      .fail (.valueError ("Export failed: " ++ pyStr j.failure_message))
    else .next

/-- Loop body of `ImportJob.wait_until_complete` (import_table.py lines
205-218): `COMPLETED` returns; `CANCELLING`, `CANCELLED` and `FAILED`
raise `ValueError`; anything else falls through. -/
def importWaitBody (j? : Option ImportJob) : WaitStep ImportJob :=
  match j? with
  | none => .fail .attributeError
  | some j =>
    if j.is_completed then .done j
    else if j.status = "CANCELLING" ∨ j.status = "CANCELLED" ∨
        j.status = "FAILED" then
      .fail (.valueError ("Import failed: " ++ pyStr j.failure_message))
    else .next

/-- Turn a describe function (the result of the `n`-th describe call,
1-indexed by attempt number) and a loop body into a waiter handler.
`eps` is the wall-clock time one describe call and body evaluation takes. -/
def waitHandler (describe : Nat → Except PyExc (Option α))
    (body : Option α → WaitStep α) (eps : ℚ) :
    Nat → Int → LoopCtl (Except PyExc α) :=
  fun k _ =>
    match describe k with
    | .error e => .brk (.error e)
    | .ok j? =>
      match body j? with
      | .done j => .brk (.ok j)
      | .fail e => .brk (.error e)
      | .next => .cont eps

/-- `ExportJob.wait_until_complete` (export_table.py lines 609-636): drive
`Waiter(delays=delays, timeout=timeout, instant=True)` with the export loop
body.  The trace of yields records one entry per describe call. -/
def ExportJob.wait_until_complete
    (describe : Nat → Except PyExc (Option ExportJob))
    (delays timeout eps : ℚ) (fuel : Nat) :
    List Yield × Outcome (Except PyExc ExportJob) :=
  waiterRun ⟨delays, timeout, true⟩ (waitHandler describe exportWaitBody eps)
    fuel

/-- `ImportJob.wait_until_complete` (import_table.py lines 187-218). -/
def ImportJob.wait_until_complete
    (describe : Nat → Except PyExc (Option ImportJob))
    (delays timeout eps : ℚ) (fuel : Nat) :
    List Yield × Outcome (Except PyExc ImportJob) :=
  waiterRun ⟨delays, timeout, true⟩ (waitHandler describe importWaitBody eps)
    fuel

/-! ## `list_exports` / `list_imports` pagination

`ExportJob.list_exports` (export_table.py lines 315-353) and
`ImportJob.list_imports` (import_table.py lines 84-122) are textually
identical up to naming, so the loop is embedded once, generically over the
job type.  The service's `list_*` call is a function from the optional
continuation token to a page (the table ARN and the `MaxResults=page_size`
argument are fixed for the whole run and baked into that function); the
per-entry `describe_*` call is a function from the job ARN to an optional
detailed record.  The result carries the number of paged service calls
made.  When `get_details` is true the appended entry is exactly what
describe returned, which may be `none`. -/

/-- One response of the paged `list_exports` / `list_imports` service call:
the page's `(arn, status)` summaries and the optional `NextToken`. -/
structure ListPage where
  summaries : List (String × String)
  nextToken : Option String
  deriving DecidableEq, Repr

/-- The inner `for dct in res.get(...)` loop: append one entry per summary
and return early (`true` flag) as soon as `max_results` entries have been
collected. -/
def listJobsPageLoop (describe : String → Option α)
    (mkThin : String → String → α) (get_details : Bool) (max_results : Nat) :
    List (String × String) → List (Option α) → List (Option α) × Bool
  | [], acc => (acc, false)
  | (arn, status) :: rest, acc =>
    let entry := if get_details then describe arn else some (mkThin arn status)
    let acc2 := acc ++ [entry]
    if max_results ≤ acc2.length then (acc2, true)
    else listJobsPageLoop describe mkThin get_details max_results rest acc2

/-- The outer `while 1` loop, with fuel (`none` = the loop was still
running).  After a page without early return, the code reads
`res.get("NextToken", "NOT_AVAILABLE")` and breaks on the sentinel value.
Returns the collected entries and the number of paged service calls. -/
def listJobsLoop (client : Option String → ListPage)
    (describe : String → Option α) (mkThin : String → String → α)
    (get_details : Bool) (max_results : Nat) :
    Option String → List (Option α) → Nat → Nat →
    Option (List (Option α) × Nat)
  | _, _, _, 0 => none
  | token, acc, calls, fuel + 1 =>
    let res := client token
    match listJobsPageLoop describe mkThin get_details max_results
        res.summaries acc with
    | (acc2, true) => some (acc2, calls + 1)
    | (acc2, false) =>
      let nt := res.nextToken.getD "NOT_AVAILABLE"
      if nt = "NOT_AVAILABLE" then some (acc2, calls + 1)
      else listJobsLoop client describe mkThin get_details max_results
        (some nt) acc2 (calls + 1) fuel

/-- `ExportJob.list_exports` (export_table.py lines 315-353): thin entries
are `cls(arn=export_arn, status=export_status)`. -/
def ExportJob.list_exports (client : Option String → ListPage)
    (describe : String → Option ExportJob) (get_details : Bool)
    (max_results : Nat) (fuel : Nat) :
    Option (List (Option ExportJob) × Nat) :=
  listJobsLoop client describe (fun arn status => ExportJob.make arn status)
    get_details max_results none [] 0 fuel

/-- `ImportJob.list_imports` (import_table.py lines 84-122): thin entries
are `cls(arn=import_arn, status=import_status)`. -/
def ImportJob.list_imports (client : Option String → ListPage)
    (describe : String → Option ImportJob) (get_details : Bool)
    (max_results : Nat) (fuel : Nat) :
    Option (List (Option ImportJob) × Nat) :=
  listJobsLoop client describe (fun arn status => ImportJob.make arn status)
    get_details max_results none [] 0 fuel

/-- A stub paged service over a fixed job list: the (opaque) token encodes
the start index of the next page as its string length, each page holds at
most `psize` summaries, and a `NextToken` is present exactly when more jobs
remain after the page. -/
def stubListClient (jobs : List (String × String)) (psize : Nat) :
    Option String → ListPage :=
  fun token =>
    let start := match token with
    | none => 0
    | some t => t.length
    { summaries := (jobs.drop start).take psize
      nextToken :=
        if start + psize < jobs.length then
          some (String.mk (List.replicate (start + psize) 'x'))
        else none }

/-! ## Data file codec -/

/-- A value decoded from one line of an Amazon Ion data file with the
`MAY_BE_BARE` value model: a bare Python value, either a scalar-like value
(number, string, ...) or a mapping. -/
inductive IonVal where
  | scalar (n : Int)
  | string (s : String)
  | mapping (entries : List (String × IonVal))
  deriving Repr

/-- First-binding lookup in an Ion mapping. -/
def ionLookup : List (String × IonVal) → String → Option IonVal
  | [], _ => none
  | (k, v) :: rest, key => if key = k then some v else ionLookup rest key

/-- Python subscripting `v["Item"]` on a decoded line value: a mapping
looks the key up (raising `KeyError` when absent); subscripting any
non-mapping value with a string raises `TypeError`. -/
def ionSubscript (v : IonVal) (key : String) : Except PyExc IonVal :=
  match v with
  | .mapping es =>
    match ionLookup es key with
    | some w => .ok w
    | none => .error (.keyError key)
  | _ => .error .typeError

/-- The per-line loop of `DataFile.read_amazon_ion` (export_table.py lines
251-257) over the decompressed file's lines: each line is parsed with
`loads` (the external `amazon.ion` decoder, a parameter here) and
subscripted with `"Item"`; a `TypeError` raised by either step skips the
line (`except TypeError: pass`), any other exception aborts the whole
call. -/
def readAmazonIonLines (loads : String → Except PyExc IonVal) :
    List String → Except PyExc (List IonVal)
  | [] => .ok []
  | line :: rest =>
    match loads line >>= fun v => ionSubscript v "Item" with
    | .ok item =>
      match readAmazonIonLines loads rest with
      | .ok items => .ok (item :: items)
      | .error e => .error e
    | .error .typeError => readAmazonIonLines loads rest
    | .error e => .error e

/-! ## Import payload encoding -/

/-- A `put_object` call observed by the stub S3 client. -/
structure PutCall where
  bucket : String
  key : String
  deriving DecidableEq, Repr

/-- `write_amazon_ion` (import_table.py lines 224-275): its first statement
raises `NotImplementedError`; everything after it (Ion serialization, gzip
compression and the `s3_client.put_object` call) is unreachable.  The
second component is the list of `put_object` calls made, in order. -/
def write_amazon_ion (records : List α) (s3uri : String) :
    Except PyExc Unit × List PutCall :=
  (.error .notImplementedError, [])

/-! ## Derived forms and concrete fixtures used by the theorems -/

/-- The summary `from_dict` builds when all required keys are present:
every field is the `pyGet` of its document key (for required keys this
agrees with `data[...]` because the key is present). -/
def summaryOfDoc (d : Doc) : ManifestSummary :=
  { version := pyGet d "version"
    export_arn := pyGet d "exportArn"
    table_id := pyGet d "tableId"
    table_arn := pyGet d "tableArn"
    s3_bucket := pyGet d "s3Bucket"
    s3_prefix_ := pyGet d "s3Prefix"
    s3_sse_algorithm := pyGet d "s3SseAlgorithm"
    s3_sse_kms_key_id := pyGet d "s3SseKmsKeyId"
    item_count := pyGet d "itemCount"
    output_format := pyGet d "outputFormat"
    output_view := pyGet d "outputView"
    export_from_time_str := pyGet d "exportFromTime"
    export_to_time_str := pyGet d "exportToTime"
    start_time_str := pyGet d "startTime"
    end_time_str := pyGet d "endTime"
    export_time_str := pyGet d "exportTime"
    manifest_files_s3_key := pyGet d "manifestFilesS3Key"
    billed_size_bytes := pyGet d "billedSizeBytes"
    export_type := pyGet d "exportType" }

/-- The required keys of `ManifestSummary.from_dict` (those read with
`data[...]` rather than `data.get`). -/
def requiredSummaryKeys : List String :=
  ["version", "exportArn", "tableId", "tableArn", "s3Bucket", "s3Prefix",
   "s3SseAlgorithm", "itemCount", "outputFormat", "startTime", "endTime",
   "manifestFilesS3Key", "billedSizeBytes", "exportType"]

/-- An export job record in `COMPLETED` state (detailed record the stub
service reports once the job finishes). -/
def completedExportJobFx : ExportJob :=
  ExportJob.make "arn:aws:dynamodb:us-east-1:111:table/t/export/01-ab" "COMPLETED"
    (some "bkt") (some "pfx") none none (some "DYNAMODB_JSON")
    (some "FULL_EXPORT")

/-- The same job while still running. -/
def inProgressExportJobFx : ExportJob :=
  ExportJob.make "arn:aws:dynamodb:us-east-1:111:table/t/export/01-ab" "IN_PROGRESS"

/-- Stub `describe_export` sequence: `IN_PROGRESS` on the first two calls,
`COMPLETED` from the third call on. -/
def stubDescribeFx : Nat → Except PyExc (Option ExportJob) :=
  fun n => if n ≤ 2 then .ok (some inProgressExportJobFx)
    else .ok (some completedExportJobFx)

/-- A consumer that never breaks out of the polling loop, spending `eps`
seconds of its own per yielded pair. -/
def neverBreak (eps : ℚ) : Nat → Int → LoopCtl Unit :=
  fun _ _ => .cont eps

/-- A stub DynamoDB client whose `describe_export` raises a
`botocore.exceptions.ClientError` with a non-NotFound error code. -/
def accessDeniedExportClient : String → Except PyExc ExportDesc :=
  fun _ => .error (.clientError "AccessDeniedException" 7)

/-- A stub Ion decoder: the line `"good"` parses to a record mapping
wrapping an item under `"Item"`, any other line parses to a bare scalar. -/
def stubIonLoads : String → Except PyExc IonVal :=
  fun s => if s = "good" then
    .ok (.mapping [("Item", .mapping [("id", .scalar 1)])])
  else .ok (.scalar 42)

/-- The item wrapped by the well-formed line of `stubIonLoads`. -/
def stubIonItem : IonVal := .mapping [("id", .scalar 1)]

/-- Seven thin job summaries for the pagination scenario. -/
def sevenJobsFx : List (String × String) :=
  [("a1", "COMPLETED"), ("a2", "COMPLETED"), ("a3", "IN_PROGRESS"),
   ("a4", "FAILED"), ("a5", "COMPLETED"), ("a6", "COMPLETED"),
   ("a7", "COMPLETED")]

/-- A full-export summary document with an unrecognized `exportType` tag
(`"FOO"`), all required keys present. -/
def badTagDocFx : Doc :=
  [("version", .str "2020-06-30"),
   ("exportArn", .str "arn:aws:dynamodb:us-east-1:111:table/t/export/01-ab"),
   ("tableId", .str "tid"), ("tableArn", .str "tarn"),
   ("s3Bucket", .str "bkt"), ("s3Prefix", .str "pfx"),
   ("s3SseAlgorithm", .str "AES256"), ("s3SseKmsKeyId", .null),
   ("itemCount", .int 8), ("outputFormat", .str "DYNAMODB_JSON"),
   ("startTime", .str "2020-11-04T07:28:34.028Z"),
   ("endTime", .str "2020-11-04T07:33:43.897Z"),
   ("exportTime", .str "2020-11-04T07:28:34.028Z"),
   ("manifestFilesS3Key", .str "AWSDynamoDB/01-ab/manifest-files.json"),
   ("billedSizeBytes", .int 0), ("exportType", .str "FOO")]

/-- A valid full-export summary document (witness input for the
round-trip). -/
def fullDocFx : Doc :=
  [("version", .str "2020-06-30"),
   ("exportArn", .str "arn:aws:dynamodb:us-east-1:111:table/t/export/01-ab"),
   ("tableId", .str "tid"), ("tableArn", .str "tarn"),
   ("s3Bucket", .str "bkt"), ("s3Prefix", .str "pfx"),
   ("s3SseAlgorithm", .str "AES256"), ("s3SseKmsKeyId", .null),
   ("itemCount", .int 8), ("outputFormat", .str "DYNAMODB_JSON"),
   ("startTime", .str "2020-11-04T07:28:34.028Z"),
   ("endTime", .str "2020-11-04T07:33:43.897Z"),
   ("exportTime", .str "2020-11-04T07:28:34.028Z"),
   ("manifestFilesS3Key", .str "AWSDynamoDB/01-ab/manifest-files.json"),
   ("billedSizeBytes", .int 0), ("exportType", .str "FULL_EXPORT")]

/-- A describe stub for the detailed-listing scenario: the second job is
unknown to the service (`describe` returns absent), others are found. -/
def vanishingDescribeFx : String → Option ExportJob :=
  fun a => if a = "a2" then none else some (ExportJob.make a "COMPLETED")

/-- Import-side analogue of `vanishingDescribeFx`. -/
def vanishingDescribeImportFx : String → Option ImportJob :=
  fun a => if a = "a2" then none else some (ImportJob.make a "COMPLETED")

/-- A stub DynamoDB client whose `describe_import` raises the NotFound
`ClientError`. -/
def notFoundImportClient : String → Except PyExc ImportDesc :=
  fun _ => .error (.clientError "ImportNotFoundException" 0)

/-! # Theorems -/

/-- A found lookup comes from a binding in the document. -/
theorem lookupKV_mem {d : Doc} {k : String} {v : JVal}
    (h : lookupKV d k = some v) : (k, v) ∈ d := by
  induction d with
  | nil => simp [lookupKV] at h
  | cons p rest ih =>
    obtain ⟨k', v'⟩ := p
    by_cases hk : k = k'
    · subst hk
      simp [lookupKV] at h
      subst h
      exact List.mem_cons_self _ _
    · simp [lookupKV, hk] at h
      exact List.mem_cons_of_mem _ (ih h)

/-- When the key is present, `data[k]` succeeds and agrees with
`data.get(k)`. -/
theorem pyGetItem_of_isSome {d : Doc} {k : String}
    (h : (lookupKV d k).isSome) : pyGetItem d k = .ok (pyGet d k) := by
  unfold pyGetItem pyGet
  cases hl : lookupKV d k with
  | none => rw [hl] at h; simp at h
  | some v => simp

/-- When the key is present, `some (data.get(k))` is the raw lookup. -/
theorem some_pyGet_of_isSome {d : Doc} {k : String}
    (h : (lookupKV d k).isSome) : some (pyGet d k) = lookupKV d k := by
  unfold pyGet
  cases hl : lookupKV d k with
  | none => rw [hl] at h; simp at h
  | some v => simp

/-- A valid document binds no key outside its variant's key set. -/
theorem valid_lookup_none {d : Doc} {keys : List String} {tag : String}
    {k : String} (h : ValidSummaryDoc d keys tag) (hk : k ∉ keys) :
    lookupKV d k = none := by
  cases hl : lookupKV d k with
  | none => rfl
  | some v => exact absurd (h.1 (k, v) (lookupKV_mem hl)) hk

/-- On non-negative rationals, Python `int()` truncation is the floor. -/
theorem pyInt_eq_floor {q : ℚ} (h : 0 ≤ q) : pyInt q = ⌊q⌋ := by
  obtain ⟨m, hm⟩ := Int.eq_ofNat_of_zero_le (Rat.num_nonneg.mpr h)
  unfold pyInt
  rw [Rat.floor_def, hm]
  cases m with
  | zero => simp
  | succ m =>
    rw [show ((m + 1 : ℕ) : ℤ).sign = 1 from rfl, one_mul,
      Int.natAbs_ofNat]
    exact Int.ofNat_ediv _ _

/-- One-step unfolding of the waiter loop at successor fuel. -/
theorem waiterLoop_succ (cfg : WaiterCfg) (handler : Nat → Int → LoopCtl α)
    (k : Nat) (now : ℚ) (fuel : Nat) :
    waiterLoop cfg handler k now (fuel + 1) =
      if cfg.timeout - now < 0 then ([], .timeout)
      else
        match handler k (pyInt (now + cfg.delays)) with
        | .brk a =>
          ([⟨k, pyInt (now + cfg.delays),
              now + min cfg.delays (cfg.timeout - now)⟩], .broke a)
        | .cont c =>
          let r := waiterLoop cfg handler (k + 1)
            (now + min cfg.delays (cfg.timeout - now) + c) fuel
          (⟨k, pyInt (now + cfg.delays),
            now + min cfg.delays (cfg.timeout - now)⟩ :: r.1, r.2) := rfl

/-- An iteration starting past the deadline raises `TimeoutError` at once. -/
theorem waiterLoop_timeout {delays timeout : ℚ} {instant : Bool} {now : ℚ}
    (handler : Nat → Int → LoopCtl α) (k : Nat) (fuel : Nat)
    (h : timeout - now < 0) :
    waiterLoop ⟨delays, timeout, instant⟩ handler k now (fuel + 1) =
      ([], .timeout) := by
  rw [waiterLoop_succ]
  simp [h]

/-- An iteration within the deadline whose consumer breaks out. -/
theorem waiterLoop_brk {delays timeout : ℚ} {instant : Bool} {now : ℚ}
    {handler : Nat → Int → LoopCtl α} {k : Nat} (a : α) (fuel : Nat)
    (h : ¬timeout - now < 0)
    (hh : handler k (pyInt (now + delays)) = .brk a) :
    waiterLoop ⟨delays, timeout, instant⟩ handler k now (fuel + 1) =
      ([⟨k, pyInt (now + delays),
          now + min delays (timeout - now)⟩], .broke a) := by
  rw [waiterLoop_succ]
  simp [h, hh]

/-- An iteration within the deadline whose consumer lets the loop go on. -/
theorem waiterLoop_cont {delays timeout : ℚ} {instant : Bool} {now : ℚ}
    {handler : Nat → Int → LoopCtl α} {k : Nat} (c : ℚ) (fuel : Nat)
    (h : ¬timeout - now < 0)
    (hh : handler k (pyInt (now + delays)) = .cont c) :
    waiterLoop ⟨delays, timeout, instant⟩ handler k now (fuel + 1) =
      (⟨k, pyInt (now + delays), now + min delays (timeout - now)⟩ ::
        (waiterLoop ⟨delays, timeout, instant⟩ handler (k + 1)
          (now + min delays (timeout - now) + c) fuel).1,
       (waiterLoop ⟨delays, timeout, instant⟩ handler (k + 1)
          (now + min delays (timeout - now) + c) fuel).2) := by
  rw [waiterLoop_succ]
  simp [h, hh]

/-- `__iter__` with `instant` set, when the consumer of the instant first
yield lets the loop continue. -/
theorem waiterRun_instant_cont {delays timeout : ℚ}
    {handler : Nat → Int → LoopCtl α} (c : ℚ) (fuel : Nat)
    (hh : handler 1 0 = .cont c) :
    waiterRun ⟨delays, timeout, true⟩ handler fuel =
      (⟨1, 0, 0⟩ ::
        (waiterLoop ⟨delays, timeout, true⟩ handler 2 c fuel).1,
       (waiterLoop ⟨delays, timeout, true⟩ handler 2 c fuel).2) := by
  unfold waiterRun
  simp [hh]

/-- `__iter__` without `instant` goes straight into the loop. -/
theorem waiterRun_noinstant {delays timeout : ℚ}
    (handler : Nat → Int → LoopCtl α) (fuel : Nat) :
    waiterRun ⟨delays, timeout, false⟩ handler fuel =
      waiterLoop ⟨delays, timeout, false⟩ handler 1 0 fuel := rfl

/-- Python `int()` of a rational known to lie in `[n, n+1)`. -/
theorem pyInt_eq_of (q : ℚ) (n : ℤ) (h0 : 0 ≤ q) (h1 : (n : ℚ) ≤ q)
    (h2 : q < (n : ℚ) + 1) : pyInt q = n := by
  rw [pyInt_eq_floor h0]
  refine Int.floor_eq_iff.mpr ⟨h1, ?_⟩
  exact_mod_cast h2

/-- The full trace of `Waiter(delays=10, timeout=25, instant=True)` driven
by a consumer that never breaks out and spends 1/100 s per check: four
pairs are yielded — the last one at the 25 s deadline, its sleep clamped
to the remaining 5 s — and `TimeoutError` is raised on the fifth attempt. -/
theorem waiterRun_poll25_trace (fuel : Nat) :
    (waiterRun ⟨10, 25, true⟩ (neverBreak (1/100))
        (fuel + 1 + 1 + 1 + 1) : List Yield × Outcome Unit) =
      ([⟨1, 0, 0⟩, ⟨2, 10, 1001/100⟩, ⟨3, 20, 1001/50⟩, ⟨4, 30, 25⟩],
        .timeout) := by
  rw [waiterRun_instant_cont (1/100) _ rfl]
  rw [waiterLoop_cont (1/100) (fuel + 1 + 1 + 1) (by norm_num) rfl]
  rw [min_eq_left (by norm_num)]
  norm_num
  rw [pyInt_eq_of (1001/100) 10 (by norm_num) (by norm_num) (by norm_num)]
  rw [waiterLoop_cont (1/100) (fuel + 1 + 1) (by norm_num) rfl]
  rw [min_eq_left (by norm_num)]
  norm_num
  rw [pyInt_eq_of (1001/50) 20 (by norm_num) (by norm_num) (by norm_num)]
  rw [waiterLoop_cont (1/100) (fuel + 1) (by norm_num) rfl]
  rw [min_eq_right (by norm_num)]
  norm_num
  rw [pyInt_eq_of (3003/100) 30 (by norm_num) (by norm_num) (by norm_num)]
  rw [waiterLoop_timeout _ _ fuel (by norm_num)]
  simp

/-! ## Claim theorems -/

/-- **C1.** In every polling run of `wait_until_complete` (export or import
variant), each attempt inspects the record fetched by `describe`: a
successful (`COMPLETED`) status returns the detailed record; a terminal
failure status (`FAILED` for exports; `FAILED`, `CANCELLING` or `CANCELLED`
for imports) raises the job-failed `ValueError` carrying the
service-reported failure message; `IN_PROGRESS` falls through to the next
attempt.  In particular, against the stub whose describe reports
`IN_PROGRESS` twice and then `COMPLETED`, the export run with `delays=1,
timeout=10` (describe calls taking 1 s) returns the completed detailed
record after exactly 3 describe calls (the three yields of the trace). -/
theorem wait_until_complete_spec (jE : ExportJob) (jI : ImportJob)
    (fuel : Nat) :
    (jE.status = "COMPLETED" → exportWaitBody (some jE) = .done jE) ∧
    (jE.status = "FAILED" →
      exportWaitBody (some jE) =
        .fail (.valueError ("Export failed: " ++ pyStr jE.failure_message))) ∧
    (jE.status = "IN_PROGRESS" → exportWaitBody (some jE) = .next) ∧
    (jI.status = "COMPLETED" → importWaitBody (some jI) = .done jI) ∧
    ((jI.status = "FAILED" ∨ jI.status = "CANCELLING" ∨
        jI.status = "CANCELLED") →
      importWaitBody (some jI) =
        .fail (.valueError ("Import failed: " ++ pyStr jI.failure_message))) ∧
    (jI.status = "IN_PROGRESS" → importWaitBody (some jI) = .next) ∧
    ExportJob.wait_until_complete stubDescribeFx 1 10 1 (fuel + 1 + 1) =
      ([⟨1, 0, 0⟩, ⟨2, 2, 2⟩, ⟨3, 4, 4⟩],
        .broke (.ok completedExportJobFx)) := by
  refine ⟨?_, ?_, ?_, ?_, ?_, ?_, ?_⟩
  · intro h
    simp [exportWaitBody, ExportJob.is_completed, h]
  · intro h
    simp [exportWaitBody, ExportJob.is_completed, ExportJob.is_failed, h]
  · intro h
    simp [exportWaitBody, ExportJob.is_completed, ExportJob.is_failed, h]
  · intro h
    simp [importWaitBody, ImportJob.is_completed, h]
  · intro h
    rcases h with h | h | h <;>
      simp [importWaitBody, ImportJob.is_completed, h]
  · intro h
    simp [importWaitBody, ImportJob.is_completed, h]
  · unfold ExportJob.wait_until_complete
    rw [waiterRun_instant_cont 1 _ (by
      simp [waitHandler, stubDescribeFx, exportWaitBody,
        inProgressExportJobFx, ExportJob.make, ExportJob.is_completed,
        ExportJob.is_failed, normalizePrefix])]
    rw [waiterLoop_cont 1 (fuel + 1) (by norm_num) (by
      simp [waitHandler, stubDescribeFx, exportWaitBody,
        inProgressExportJobFx, ExportJob.make, ExportJob.is_completed,
        ExportJob.is_failed, normalizePrefix])]
    rw [min_eq_left (by norm_num)]
    norm_num
    rw [pyInt_eq_of 2 2 (by norm_num) (by norm_num) (by norm_num)]
    rw [waiterLoop_brk (.ok completedExportJobFx) fuel (by norm_num) (by
      simp [waitHandler, stubDescribeFx, exportWaitBody,
        completedExportJobFx, ExportJob.make, ExportJob.is_completed,
        normalizePrefix])]
    rw [pyInt_eq_of (3 + 1) 4 (by norm_num) (by norm_num) (by norm_num)]
    rw [min_eq_left (by norm_num)]
    norm_num

/-- **C1** witness: the completed-status branch and the 3-poll stub run,
instantiated concretely. -/
theorem wait_until_complete_spec_witness :
    exportWaitBody (some completedExportJobFx) = .done completedExportJobFx ∧
    ExportJob.wait_until_complete stubDescribeFx 1 10 1 2 =
      ([⟨1, 0, 0⟩, ⟨2, 2, 2⟩, ⟨3, 4, 4⟩],
        .broke (.ok completedExportJobFx)) :=
  ⟨(wait_until_complete_spec completedExportJobFx
      (ImportJob.make "arn-i" "COMPLETED") 0).1 rfl,
   (wait_until_complete_spec completedExportJobFx
      (ImportJob.make "arn-i" "COMPLETED") 0).2.2.2.2.2.2⟩

/-- **C2** counterexample: with `delays=10, timeout=25, instant=True` and a
consumer that never breaks out (spending 1/100 s per check), the waiter
does *not* fail with `Timeout` on or before the 4th attempt: the 4th
attempt still yields a pair (its sleep is clamped to the remaining time so
it fires exactly at the deadline), and the `TimeoutError` is raised only on
the 5th attempt. -/
theorem waiter_timeout_counterexample :
    ((waiterRun ⟨10, 25, true⟩ (neverBreak (1/100)) 5 :
        List Yield × Outcome Unit).1.map Yield.attempt = [1, 2, 3, 4]) ∧
    (waiterRun ⟨10, 25, true⟩ (neverBreak (1/100)) 5 :
        List Yield × Outcome Unit).2 = .timeout := by
  have h := waiterRun_poll25_trace 1
  rw [show (5 : Nat) = 1 + 1 + 1 + 1 + 1 from rfl, h]
  simp

/-- **C2** (amended): with `delays=10, timeout=25, instant=True` and a
consumer that never breaks out (1/100 s per check), the waiter yields pairs
at elapsed times 0, ~10, ~20, then a 4th pair exactly at the 25 s deadline
(the final sleep is clamped to the remaining time), and fails with
`TimeoutError` on the 5th attempt.  In general, once the timeout is
strictly exceeded at the start of an iteration, that iteration fails with
the `Timeout` error instead of producing a pair. -/
theorem waiter_timeout_amended (α : Type) :
    (∀ fuel : Nat,
      (waiterRun ⟨10, 25, true⟩ (neverBreak (1/100))
          (fuel + 1 + 1 + 1 + 1) : List Yield × Outcome Unit) =
        ([⟨1, 0, 0⟩, ⟨2, 10, 1001/100⟩, ⟨3, 20, 1001/50⟩, ⟨4, 30, 25⟩],
          .timeout)) ∧
    (∀ (delays timeout now : ℚ) (instant : Bool)
        (handler : Nat → Int → LoopCtl α) (k fuel : Nat),
      timeout < now →
      waiterLoop ⟨delays, timeout, instant⟩ handler k now (fuel + 1) =
        ([], .timeout)) := by
  refine ⟨waiterRun_poll25_trace, ?_⟩
  intro delays timeout now instant handler k fuel h
  exact waiterLoop_timeout handler k fuel (by linarith)

/-- **C2** witness: the amended statement applied at a concrete
configuration (and a concrete past-deadline iteration). -/
theorem waiter_timeout_amended_witness :
    (waiterRun ⟨10, 25, true⟩ (neverBreak (1/100)) 5 :
        List Yield × Outcome Unit) =
      ([⟨1, 0, 0⟩, ⟨2, 10, 1001/100⟩, ⟨3, 20, 1001/50⟩, ⟨4, 30, 25⟩],
        .timeout) ∧
    waiterLoop ⟨10, 25, true⟩ (neverBreak 1) 5 26 1 = ([], .timeout) :=
  ⟨(waiter_timeout_amended Unit).1 1,
   (waiter_timeout_amended Unit).2 10 25 26 true (neverBreak 1) 5 0
     (by decide)⟩

/-- **C3** counterexample: a `describe_export` whose underlying client call
raises a `ClientError` with code `AccessDeniedException` does not propagate
that error object: the result is a fresh `NotImplementedError`, a different
error value. -/
theorem describe_error_counterexample :
    ExportJob.describe_export accessDeniedExportClient "arn-x" =
      .error .notImplementedError ∧
    PyExc.notImplementedError ≠ PyExc.clientError "AccessDeniedException" 7 := by
  constructor
  · rfl
  · intro h
    cases h

/-- **C3** (amended): `describe_export` / `describe_import` return an
absent value on the NotFound `ClientError` code; any *other*
`botocore.exceptions.ClientError` is replaced by a fresh
`NotImplementedError` (the original error object is discarded); exceptions
that are not `ClientError` propagate unchanged; a successful response is
converted with `from_*_description`. -/
theorem describe_amended (clientE : String → Except PyExc ExportDesc)
    (clientI : String → Except PyExc ImportDesc) (arn : String) :
    (∀ tag, clientE arn = .error (.clientError "ExportNotFoundException" tag) →
      ExportJob.describe_export clientE arn = .ok none) ∧
    (∀ code tag, clientE arn = .error (.clientError code tag) →
      code ≠ "ExportNotFoundException" →
      ExportJob.describe_export clientE arn = .error .notImplementedError) ∧
    (∀ e, clientE arn = .error e → (∀ code tag, e ≠ .clientError code tag) →
      ExportJob.describe_export clientE arn = .error e) ∧
    (∀ desc, clientE arn = .ok desc →
      ExportJob.describe_export clientE arn =
        .ok (some (ExportJob.from_export_description desc))) ∧
    (∀ tag, clientI arn = .error (.clientError "ImportNotFoundException" tag) →
      ImportJob.describe_import clientI arn = .ok none) ∧
    (∀ code tag, clientI arn = .error (.clientError code tag) →
      code ≠ "ImportNotFoundException" →
      ImportJob.describe_import clientI arn = .error .notImplementedError) ∧
    (∀ e, clientI arn = .error e → (∀ code tag, e ≠ .clientError code tag) →
      ImportJob.describe_import clientI arn = .error e) ∧
    (∀ desc, clientI arn = .ok desc →
      ImportJob.describe_import clientI arn =
        .ok (some (ImportJob.from_import_description desc))) := by
  refine ⟨?_, ?_, ?_, ?_, ?_, ?_, ?_, ?_⟩
  · intro tag h
    simp [ExportJob.describe_export, h]
  · intro code tag h hc
    simp [ExportJob.describe_export, h, hc]
  · intro e he hne
    cases e <;> first
      | exact absurd rfl (hne _ _)
      | simp [ExportJob.describe_export, he]
  · intro desc h
    simp [ExportJob.describe_export, h]
  · intro tag h
    simp [ImportJob.describe_import, h]
  · intro code tag h hc
    simp [ImportJob.describe_import, h, hc]
  · intro e he hne
    cases e <;> first
      | exact absurd rfl (hne _ _)
      | simp [ImportJob.describe_import, he]
  · intro desc h
    simp [ImportJob.describe_import, h]

/-- **C3** witness: the amended behavior at two concrete stub clients. -/
theorem describe_amended_witness :
    ExportJob.describe_export accessDeniedExportClient "arn-x" =
      .error .notImplementedError ∧
    ImportJob.describe_import notFoundImportClient "arn-x" = .ok none :=
  ⟨(describe_amended accessDeniedExportClient notFoundImportClient
      "arn-x").2.1 "AccessDeniedException" 7 rfl (by decide),
   (describe_amended accessDeniedExportClient notFoundImportClient
      "arn-x").2.2.2.2.1 0 rfl⟩

/-- **C5.** For every input record collection and destination location,
`write_amazon_ion` fails with `NotImplementedError` (the unsupported
operation) before any object-store call: the list of `put_object` calls it
makes is empty. -/
theorem write_amazon_ion_unsupported (α : Type) (records : List α)
    (s3uri : String) :
    write_amazon_ion records s3uri =
      (Except.error PyExc.notImplementedError, ([] : List PutCall)) := rfl

/-- **C6.** The per-line loop of the Amazon Ion decoder: a file with one
well-formed record line and one line whose top-level payload is a scalar
yields exactly the one wrapped item, in either line order — the scalar
line's `TypeError` on subscripting is swallowed and the line skipped, with
neither a second record nor an error. -/
theorem read_amazon_ion_lenient (loads : String → Except PyExc IonVal)
    (goodLine badLine : String) (entries : List (String × IonVal))
    (item : IonVal) (n : Int)
    (hgood : loads goodLine = .ok (.mapping entries))
    (hitem : ionLookup entries "Item" = some item)
    (hbad : loads badLine = .ok (.scalar n)) :
    readAmazonIonLines loads [goodLine, badLine] = .ok [item] ∧
    readAmazonIonLines loads [badLine, goodLine] = .ok [item] := by
  constructor <;>
    simp [readAmazonIonLines, hgood, hbad, hitem, ionSubscript, Bind.bind,
      Except.bind]

/-- **C6** witness: the lenient decode at a concrete stub decoder. -/
theorem read_amazon_ion_lenient_witness :
    readAmazonIonLines stubIonLoads ["good", "bad"] = .ok [stubIonItem] ∧
    readAmazonIonLines stubIonLoads ["bad", "good"] = .ok [stubIonItem] :=
  read_amazon_ion_lenient stubIonLoads "good" "bad" [("Item", stubIonItem)]
    stubIonItem 42 rfl rfl rfl

/-- **C7.** A waiter with a timeout strictly smaller than one delay
interval, no instant first poll, and a consumer whose condition never
becomes true (each check taking `eps > 0` s) surfaces the `Timeout` error
— it is raised on the second attempt — and never yields an attempt pair
past the deadline: the only pair yielded fires exactly at the deadline
(its sleep is clamped to the remaining time), not after it. -/
theorem waiter_subdelay_timeout_spec (delay timeout eps : ℚ) (fuel : Nat)
    (h0 : 0 ≤ timeout) (h1 : timeout < delay) (h2 : 0 < eps) :
    (waiterRun ⟨delay, timeout, false⟩ (fun _ _ => LoopCtl.cont eps)
        (fuel + 1 + 1) : List Yield × Outcome Unit) =
      ([⟨1, pyInt delay, timeout⟩], .timeout) ∧
    ∀ y ∈ (waiterRun ⟨delay, timeout, false⟩ (fun _ _ => LoopCtl.cont eps)
        (fuel + 1 + 1) : List Yield × Outcome Unit).1,
      y.wall ≤ timeout := by
  have hrun : (waiterRun ⟨delay, timeout, false⟩
      (fun _ _ => LoopCtl.cont eps) (fuel + 1 + 1) :
      List Yield × Outcome Unit) =
      ([⟨1, pyInt delay, timeout⟩], .timeout) := by
    rw [waiterRun_noinstant]
    rw [waiterLoop_cont eps (fuel + 1) (by simp; linarith) rfl]
    simp only [zero_add, sub_zero]
    rw [min_eq_right h1.le]
    rw [waiterLoop_timeout _ _ fuel (by linarith)]
  refine ⟨hrun, ?_⟩
  rw [hrun]
  simp

/-- **C7** witness: `delay=10, timeout=5, eps=1`. -/
theorem waiter_subdelay_timeout_witness :
    (waiterRun ⟨10, 5, false⟩ (fun _ _ => LoopCtl.cont 1) 2 :
        List Yield × Outcome Unit) = ([⟨1, pyInt 10, 5⟩], .timeout) ∧
    ∀ y ∈ (waiterRun ⟨10, 5, false⟩ (fun _ _ => LoopCtl.cont 1) 2 :
        List Yield × Outcome Unit).1, y.wall ≤ 5 :=
  waiter_subdelay_timeout_spec 10 5 1 0 (by decide) (by decide) (by decide)

/-- **C8.** `list_exports` / `list_imports` with `page_size=2,
max_results=5` against a paged stub holding any 7 jobs return exactly the
first 5 jobs, in service order, after exactly 3 paged service calls,
following the continuation token between calls and returning as soon as
`max_results` records are collected. -/
theorem list_pagination_spec (jobs : List (String × String))
    (describeE : String → Option ExportJob)
    (describeI : String → Option ImportJob) (fuel : Nat)
    (h : jobs.length = 7) :
    ExportJob.list_exports (stubListClient jobs 2) describeE false 5
        (fuel + 1 + 1 + 1) =
      some ((jobs.take 5).map (fun p => some (ExportJob.make p.1 p.2)), 3) ∧
    ImportJob.list_imports (stubListClient jobs 2) describeI false 5
        (fuel + 1 + 1 + 1) =
      some ((jobs.take 5).map (fun p => some (ImportJob.make p.1 p.2)), 3) := by
  rcases jobs with _ | ⟨p1, _ | ⟨p2, _ | ⟨p3, _ | ⟨p4, _ | ⟨p5, _ | ⟨p6,
    _ | ⟨p7, _ | ⟨p8, rest⟩⟩⟩⟩⟩⟩⟩⟩
  all_goals try exact ⟨rfl, rfl⟩
  all_goals (simp only [List.length_cons, List.length_nil] at h; try omega)

/-- **C8** witness: the pagination scenario at a concrete 7-job stub. -/
theorem list_pagination_witness :
    ExportJob.list_exports (stubListClient sevenJobsFx 2) (fun _ => none)
        false 5 3 =
      some ((sevenJobsFx.take 5).map
        (fun p => some (ExportJob.make p.1 p.2)), 3) ∧
    ImportJob.list_imports (stubListClient sevenJobsFx 2) (fun _ => none)
        false 5 3 =
      some ((sevenJobsFx.take 5).map
        (fun p => some (ImportJob.make p.1 p.2)), 3) :=
  list_pagination_spec sevenJobsFx (fun _ => none) (fun _ => none) 0 rfl

/-- **C9** counterexample: a summary document whose `exportType` tag is the
unrecognized `"FOO"` (all required keys present) is *accepted* by
`from_dict` — decoding succeeds with the tag stored as-is, rather than
failing with an unsupported-format error. -/
theorem unknown_tag_counterexample :
    ManifestSummary.from_dict badTagDocFx = .ok (summaryOfDoc badTagDocFx) ∧
    (summaryOfDoc badTagDocFx).export_type = .str "FOO" := ⟨rfl, rfl⟩

/-- **C9** (amended): decoding performs no validation of the export-type
tag — a document with an unrecognized tag parses successfully — and the
unsupported-format error surfaces only at re-encoding: `to_dict` on a
summary whose tag is neither `FULL_EXPORT` nor `INCREMENTAL_EXPORT` fails
with `NotImplementedError` rather than falling back to a default
variant. -/
theorem unknown_tag_amended (ms : ManifestSummary)
    (h1 : ms.is_full_export = false) (h2 : ms.is_incremental_export = false) :
    ms.to_dict = .error .notImplementedError ∧
    ManifestSummary.from_dict badTagDocFx = .ok (summaryOfDoc badTagDocFx) := by
  constructor
  · simp [ManifestSummary.to_dict, h1, h2]
  · rfl

/-- **C9** witness: the amended statement at the concrete bad-tag
summary. -/
theorem unknown_tag_amended_witness :
    (summaryOfDoc badTagDocFx).to_dict = .error .notImplementedError ∧
    ManifestSummary.from_dict badTagDocFx = .ok (summaryOfDoc badTagDocFx) :=
  unknown_tag_amended (summaryOfDoc badTagDocFx) rfl rfl

/-- **C10.** When `list_exports` / `list_imports` run with
`get_details=True` and the per-entry describe returns an absent value for
one of the listed handles, the returned list contains that absent value as
an entry at the corresponding position; it still counts toward
`max_results` (here the run stops at 2 entries, the second being the
absent one) and is neither skipped nor an error. -/
theorem list_details_absent_spec (a1 a2 a3 s1 s2 s3 : String)
    (describeE : String → Option ExportJob)
    (describeI : String → Option ImportJob)
    (jE : ExportJob) (jI : ImportJob) (fuel : Nat)
    (h1 : describeE a1 = some jE) (h2 : describeE a2 = none)
    (h3 : describeI a1 = some jI) (h4 : describeI a2 = none) :
    ExportJob.list_exports (stubListClient [(a1, s1), (a2, s2), (a3, s3)] 3)
        describeE true 2 (fuel + 1) = some ([some jE, none], 1) ∧
    ImportJob.list_imports (stubListClient [(a1, s1), (a2, s2), (a3, s3)] 3)
        describeI true 2 (fuel + 1) = some ([some jI, none], 1) := by
  constructor <;>
    simp [ExportJob.list_exports, ImportJob.list_imports, listJobsLoop,
      listJobsPageLoop, stubListClient, h1, h2, h3, h4]

/-- `Except.ok` on the left of a bind reduces. -/
theorem except_bind_ok (a : α) (f : α → Except ε β) :
    (Except.ok a >>= f) = f a := rfl

/-- When every required key is present, `from_dict` succeeds and every
field holds the `pyGet` of its document key. -/
theorem from_dict_eq_summaryOfDoc {d : Doc}
    (h : ∀ k ∈ requiredSummaryKeys, (lookupKV d k).isSome) :
    ManifestSummary.from_dict d = .ok (summaryOfDoc d) := by
  have h1 := pyGetItem_of_isSome (h "version" (by simp [requiredSummaryKeys]))
  have h2 := pyGetItem_of_isSome (h "exportArn" (by simp [requiredSummaryKeys]))
  have h3 := pyGetItem_of_isSome (h "tableId" (by simp [requiredSummaryKeys]))
  have h4 := pyGetItem_of_isSome (h "tableArn" (by simp [requiredSummaryKeys]))
  have h5 := pyGetItem_of_isSome (h "s3Bucket" (by simp [requiredSummaryKeys]))
  have h6 := pyGetItem_of_isSome (h "s3Prefix" (by simp [requiredSummaryKeys]))
  have h7 := pyGetItem_of_isSome
    (h "s3SseAlgorithm" (by simp [requiredSummaryKeys]))
  have h8 := pyGetItem_of_isSome (h "itemCount" (by simp [requiredSummaryKeys]))
  have h9 := pyGetItem_of_isSome
    (h "outputFormat" (by simp [requiredSummaryKeys]))
  have h10 := pyGetItem_of_isSome (h "startTime" (by simp [requiredSummaryKeys]))
  have h11 := pyGetItem_of_isSome (h "endTime" (by simp [requiredSummaryKeys]))
  have h12 := pyGetItem_of_isSome
    (h "manifestFilesS3Key" (by simp [requiredSummaryKeys]))
  have h13 := pyGetItem_of_isSome
    (h "billedSizeBytes" (by simp [requiredSummaryKeys]))
  have h14 := pyGetItem_of_isSome
    (h "exportType" (by simp [requiredSummaryKeys]))
  unfold ManifestSummary.from_dict
  simp only [h1, h2, h3, h4, h5, h6, h7, h8, h9, h10, h11, h12, h13, h14,
    except_bind_ok]
  rfl

/-- Looking a key up in the dictionary `{k: data.get(k) for k in ks}`. -/
theorem lookup_map_pyGet (d : Doc) (ks : List String) (k : String) :
    lookupKV (ks.map fun x => (x, pyGet d x)) k =
      if k ∈ ks then some (pyGet d k) else none := by
  induction ks with
  | nil => simp [lookupKV]
  | cons a rest ih =>
    by_cases hk : k = a
    · subst hk
      simp [lookupKV]
    · simp [lookupKV, hk, ih]

/-- Round-trip of a valid full-export summary document. -/
theorem roundtrip_full {d : Doc}
    (h : ValidSummaryDoc d fullExportKeys FULL_EXPORT) :
    ∃ out, (ManifestSummary.from_dict d).bind ManifestSummary.to_dict =
        .ok out ∧ ∀ k, lookupKV out k = lookupKV d k := by
  have hreq : ∀ k ∈ requiredSummaryKeys, (lookupKV d k).isSome := by
    intro k hk
    refine h.2.1 k ?_
    simp only [requiredSummaryKeys, List.mem_cons, List.not_mem_nil,
      or_false] at hk
    rcases hk with rfl|rfl|rfl|rfl|rfl|rfl|rfl|rfl|rfl|rfl|rfl|rfl|rfl|rfl <;>
      simp [fullExportKeys]
  have hfd := from_dict_eq_summaryOfDoc hreq
  have htag : (summaryOfDoc d).export_type = .str FULL_EXPORT := by
    simp [summaryOfDoc, pyGet, h.2.2]
  have hfull : (summaryOfDoc d).is_full_export = true := by
    simp [ManifestSummary.is_full_export, htag]
  refine ⟨fullExportKeys.map fun x => (x, pyGet d x), ?_, ?_⟩
  · rw [hfd]
    show ManifestSummary.to_dict (summaryOfDoc d) = _
    rw [ManifestSummary.to_dict, if_pos hfull]
    rfl
  · intro k
    rw [lookup_map_pyGet]
    split_ifs with hk
    · exact some_pyGet_of_isSome (h.2.1 _ hk)
    · exact (valid_lookup_none h hk).symm

/-- Round-trip of a valid incremental-export summary document. -/
theorem roundtrip_incremental {d : Doc}
    (h : ValidSummaryDoc d incrementalExportKeys INCREMENTAL_EXPORT) :
    ∃ out, (ManifestSummary.from_dict d).bind ManifestSummary.to_dict =
        .ok out ∧ ∀ k, lookupKV out k = lookupKV d k := by
  have hreq : ∀ k ∈ requiredSummaryKeys, (lookupKV d k).isSome := by
    intro k hk
    refine h.2.1 k ?_
    simp only [requiredSummaryKeys, List.mem_cons, List.not_mem_nil,
      or_false] at hk
    rcases hk with rfl|rfl|rfl|rfl|rfl|rfl|rfl|rfl|rfl|rfl|rfl|rfl|rfl|rfl <;>
      simp [incrementalExportKeys]
  have hfd := from_dict_eq_summaryOfDoc hreq
  have htag : (summaryOfDoc d).export_type = .str INCREMENTAL_EXPORT := by
    simp [summaryOfDoc, pyGet, h.2.2]
  have hnotfull : ¬(summaryOfDoc d).is_full_export = true := by
    simp [ManifestSummary.is_full_export, htag, FULL_EXPORT,
      INCREMENTAL_EXPORT]
  have hincr : (summaryOfDoc d).is_incremental_export = true := by
    simp [ManifestSummary.is_incremental_export, htag]
  refine ⟨incrementalExportKeys.map fun x => (x, pyGet d x), ?_, ?_⟩
  · rw [hfd]
    show ManifestSummary.to_dict (summaryOfDoc d) = _
    rw [ManifestSummary.to_dict, if_neg hnotfull, if_pos hincr]
    rfl
  · intro k
    rw [lookup_map_pyGet]
    split_ifs with hk
    · exact some_pyGet_of_isSome (h.2.1 _ hk)
    · exact (valid_lookup_none h hk).symm

/-- **C4.** For every valid Manifest Summary document of either variant
(`FULL_EXPORT` or `INCREMENTAL_EXPORT`), decoding with
`ManifestSummary.from_dict` and re-encoding with `to_dict` reproduces the
original document field-for-field: the result binds exactly the same keys
to the same values. -/
theorem manifest_summary_roundtrip (d : Doc)
    (h : ValidSummaryDoc d fullExportKeys FULL_EXPORT ∨
      ValidSummaryDoc d incrementalExportKeys INCREMENTAL_EXPORT) :
    ∃ out, (ManifestSummary.from_dict d).bind ManifestSummary.to_dict =
        .ok out ∧ ∀ k, lookupKV out k = lookupKV d k := by
  rcases h with h | h
  · exact roundtrip_full h
  · exact roundtrip_incremental h

/-- **C4** witness: the round-trip at a concrete valid full-export
document. -/
theorem manifest_summary_roundtrip_witness :
    ∃ out, (ManifestSummary.from_dict fullDocFx).bind
        ManifestSummary.to_dict = .ok out ∧
      ∀ k, lookupKV out k = lookupKV fullDocFx k :=
  manifest_summary_roundtrip fullDocFx (Or.inl (by decide))

/-- **C10** witness: the detailed-listing scenario at a concrete stub where
the second job vanished between the page and its describe call. -/
theorem list_details_absent_witness :
    ExportJob.list_exports
        (stubListClient [("a1", "COMPLETED"), ("a2", "COMPLETED"),
          ("a3", "COMPLETED")] 3) vanishingDescribeFx true 2 1 =
      some ([some (ExportJob.make "a1" "COMPLETED"), none], 1) ∧
    ImportJob.list_imports
        (stubListClient [("a1", "COMPLETED"), ("a2", "COMPLETED"),
          ("a3", "COMPLETED")] 3) vanishingDescribeImportFx true 2 1 =
      some ([some (ImportJob.make "a1" "COMPLETED"), none], 1) :=
  list_details_absent_spec "a1" "a2" "a3" "COMPLETED" "COMPLETED" "COMPLETED"
    vanishingDescribeFx vanishingDescribeImportFx
    (ExportJob.make "a1" "COMPLETED") (ImportJob.make "a1" "COMPLETED") 0
    rfl rfl rfl rfl

end AwsDynamodbIo
